import Mathlib

/-!
Verification development for the "Happy AI Website Builder" service
(src/server.js, src/unnamed/part_000, src/unnamed/part_001).

The JavaScript source is shallowly embedded as pure Lean functions:

* Outbound HTTP calls (language-model completion, GitHub REST, Vercel REST)
  are modelled by explicit "world" parameters carrying each call outcome
  (`Except` for calls that can fail, `Option` for lookups).  Request
  payloads sent to those services are not part of the observable state and
  are not modelled.
* `Date.now()` / `new Date()` draws are modelled by explicit `Nat` clock
  parameters, one per call site.
* JavaScript string truthiness (`undefined`/`null`/`""` are falsy) is
  modelled on `Option String` by `jsOrStr` / `jsTruthyOpt`.
* The in-memory `userSessions` map is modelled as an association list in
  insertion order, matching JS `Map` semantics (`set` of a fresh key
  appends at the end, `set` of an existing key updates in place).
* The fixed fallback template text of `generateFallbackTemplate` in
  src/server.js is transcribed literally into the `fbHtml*`, `fbCss`,
  `fbJs` constants below (src/unnamed/part_001 contains the same function
  with its body elided by a placeholder comment).  One line of the
  transcribed script text (the scroll-spy comparison `#${sectionId}`)
  appears in the source without its backslash escapes; it is kept verbatim
  as template text.
-/

/-- JavaScript `a || b` on an optional string: `undefined`, `null` and the
empty string are falsy, so they select the fallback `b`. -/
def jsOrStr (v : Option String) (fb : String) : String :=
  match v with
  | none => fb
  | some s => if s = "" then fb else s

/-- JavaScript truthiness of an optional string value. -/
def jsTruthyOpt (v : Option String) : Bool :=
  match v with
  | none => false
  | some s => s ≠ ""

/-- A three-file static-site artifact: the `code` object `{html, css, js}`
produced by the generator and consumed by the publish/deploy steps. -/
structure Code where
  html : String
  css : String
  js : String
deriving DecidableEq, Repr

/-- A project object as sent by clients (`req.body.project` of `/api/deploy`
and `/api/save`, `currentCode` of `/api/chat`): every field may be absent. -/
structure Project where
  name : Option String
  html : Option String
  css : Option String
  js : Option String
deriving DecidableEq, Repr
/-- Fixed fallback markup, chunk before the first description interpolation (the page title). Transcribed from generateFallbackTemplate in src/server.js. -/
def fbHtml0 : String := "<!DOCTYPE html>\n<html lang=\"en\">\n<head>\n    <meta charset=\"UTF\x2d8\">\n    <meta name=\"viewport\" content=\"width=device\x2dwidth, initial\x2dscale=1.0\">\n    <title>"

/-- Fixed fallback markup, chunk between the title interpolation and the hero-heading interpolation. Transcribed from generateFallbackTemplate in src/server.js. -/
def fbHtml1 : String := " | Happy AI Builder</title>\n    <link rel=\"stylesheet\" href=\"style.css\">\n    <link rel=\"stylesheet\" href=\"https://cdnjs.cloudflare.com/ajax/libs/font\x2dawesome/6.4.0/css/all.min.css\">\n</head>\n<body>\n    <!\x2d\x2d Navigation \x2d\x2d>\n    <nav class=\"navbar\">\n        <div class=\"container\">\n            <div class=\"logo\">\n                <i class=\"fas fa\x2drobot\"></i>\n                <span>Happy AI</span>\n            </div>\n            <div class=\"nav\x2dlinks\">\n                <a href=\"#home\">Home</a>\n                <a href=\"#about\">About</a>\n                <a href=\"#features\">Features</a>\n                <a href=\"#contact\">Contact</a>\n            </div>\n            <button class=\"menu\x2dtoggle\">\n                <i class=\"fas fa\x2dbars\"></i>\n            </button>\n        </div>\n    </nav>\n\n    <!\x2d\x2d Hero Section \x2d\x2d>\n    <section class=\"hero\" id=\"home\">\n        <div class=\"container\">\n            <div class=\"hero\x2dcontent\">\n                <h1 class=\"glow\x2dtext\">"

/-- Fixed fallback markup, chunk between the hero-heading interpolation and the footer-year interpolation. Transcribed from generateFallbackTemplate in src/server.js. -/
def fbHtml2 : String := "</h1>\n                <p class=\"subtitle\">Created with ❤️ using Happy AI Website Builder</p>\n                <div class=\"cta\x2dbuttons\">\n                    <button class=\"btn primary\x2dbtn\" onclick=\"showAlert(\x27Welcome!\x27)\">\n                        <i class=\"fas fa\x2drocket\"></i> Get Started\n                    </button>\n                    <button class=\"btn secondary\x2dbtn\" onclick=\"showAlert(\x27Learn More clicked!\x27)\">\n                        <i class=\"fas fa\x2dinfo\x2dcircle\"></i> Learn More\n                    </button>\n                </div>\n            </div>\n            <div class=\"hero\x2dimage\">\n                <div class=\"glow\x2dcircle\"></div>\n            </div>\n        </div>\n    </section>\n\n    <!\x2d\x2d Features Section \x2d\x2d>\n    <section class=\"features\" id=\"features\">\n        <div class=\"container\">\n            <h2 class=\"section\x2dtitle\">✨ Amazing Features</h2>\n            <div class=\"features\x2dgrid\">\n                <div class=\"feature\x2dcard\">\n                    <div class=\"feature\x2dicon\">\n                        <i class=\"fas fa\x2dbolt\"></i>\n                    </div>\n                    <h3>Fast & Efficient</h3>\n                    <p>Lightning fast performance with optimized code</p>\n                </div>\n                <div class=\"feature\x2dcard\">\n                    <div class=\"feature\x2dicon\">\n                        <i class=\"fas fa\x2dmobile\x2dalt\"></i>\n                    </div>\n                    <h3>Mobile First</h3>\n                    <p>Perfectly responsive on all devices</p>\n                </div>\n                <div class=\"feature\x2dcard\">\n                    <div class=\"feature\x2dicon\">\n                        <i class=\"fas fa\x2dpalette\"></i>\n                    </div>\n                    <h3>Beautiful Design</h3>\n                    <p>Modern UI with glowing effects</p>\n                </div>\n            </div>\n        </div>\n    </section>\n\n    <!\x2d\x2d Footer \x2d\x2d>\n    <footer class=\"footer\">\n        <div class=\"container\">\n            <p>© "

/-- Fixed fallback markup, final chunk after the footer-year interpolation. Transcribed from generateFallbackTemplate in src/server.js. -/
def fbHtml3 : String := " Happy AI Builder. All rights reserved.</p>\n            <div class=\"social\x2dlinks\">\n                <a href=\"#\"><i class=\"fab fa\x2dgithub\"></i></a>\n                <a href=\"#\"><i class=\"fab fa\x2dtwitter\"></i></a>\n                <a href=\"#\"><i class=\"fab fa\x2dlinkedin\"></i></a>\n            </div>\n        </div>\n    </footer>\n\n    <script src=\"script.js\"></script>\n</body>\n</html>"

/-- Fixed fallback stylesheet of the fallback template; a constant, independent of the description. Transcribed from generateFallbackTemplate in src/server.js. -/
def fbCss : String := "/* Happy AI Website Builder \x2d Modern Dark Theme */\n:root \x7b\n    \x2d\x2dprimary\x2dcolor: #00ffaa;\n    \x2d\x2dsecondary\x2dcolor: #8a2be2;\n    \x2d\x2daccent\x2dcolor: #ff0080;\n    \x2d\x2ddark\x2dbg: #0a0a1a;\n    \x2d\x2dcard\x2dbg: rgba(20, 20, 40, 0.9);\n    \x2d\x2dtext\x2dprimary: #ffffff;\n    \x2d\x2dtext\x2dsecondary: #a0a0ff;\n    \x2d\x2dborder\x2dglow: rgba(0, 255, 170, 0.3);\n    \x2d\x2dshadow\x2dglow: 0 0 20px rgba(0, 255, 170, 0.3);\n    \x2d\x2dtransition: all 0.3s ease;\n\x7d\n\n* \x7b\n    margin: 0;\n    padding: 0;\n    box\x2dsizing: border\x2dbox;\n\x7d\n\nbody \x7b\n    font\x2dfamily: \x27Segoe UI\x27, \x27SF Pro Display\x27, system\x2dui, sans\x2dserif;\n    background: var(\x2d\x2ddark\x2dbg);\n    color: var(\x2d\x2dtext\x2dprimary);\n    line\x2dheight: 1.6;\n    overflow\x2dx: hidden;\n\x7d\n\n.container \x7b\n    max\x2dwidth: 1200px;\n    margin: 0 auto;\n    padding: 0 20px;\n\x7d\n\n/* Navigation */\n.navbar \x7b\n    background: var(\x2d\x2dcard\x2dbg);\n    backdrop\x2dfilter: blur(10px);\n    border\x2dbottom: 1px solid var(\x2d\x2dborder\x2dglow);\n    position: fixed;\n    top: 0;\n    left: 0;\n    right: 0;\n    z\x2dindex: 1000;\n    padding: 1rem 0;\n\x7d\n\n.navbar .container \x7b\n    display: flex;\n    justify\x2dcontent: space\x2dbetween;\n    align\x2ditems: center;\n\x7d\n\n.logo \x7b\n    display: flex;\n    align\x2ditems: center;\n    gap: 10px;\n    font\x2dsize: 1.5rem;\n    font\x2dweight: 700;\n    background: linear\x2dgradient(90deg, var(\x2d\x2dprimary\x2dcolor), var(\x2d\x2dsecondary\x2dcolor));\n    \x2dwebkit\x2dbackground\x2dclip: text;\n    \x2dwebkit\x2dtext\x2dfill\x2dcolor: transparent;\n\x7d\n\n.logo i \x7b\n    font\x2dsize: 1.8rem;\n\x7d\n\n.nav\x2dlinks \x7b\n    display: flex;\n    gap: 2rem;\n\x7d\n\n.nav\x2dlinks a \x7b\n    color: var(\x2d\x2dtext\x2dsecondary);\n    text\x2ddecoration: none;\n    font\x2dweight: 500;\n    padding: 0.5rem 1rem;\n    border\x2dradius: 8px;\n    transition: var(\x2d\x2dtransition);\n\x7d\n\n.nav\x2dlinks a:hover \x7b\n    color: var(\x2d\x2dprimary\x2dcolor);\n    background: rgba(0, 255, 170, 0.1);\n\x7d\n\n.menu\x2dtoggle \x7b\n    display: none;\n    background: none;\n    border: none;\n    color: var(\x2d\x2dprimary\x2dcolor);\n    font\x2dsize: 1.5rem;\n    cursor: pointer;\n\x7d\n\n/* Hero Section */\n.hero \x7b\n    padding: 120px 0 80px;\n    position: relative;\n    overflow: hidden;\n\x7d\n\n.hero::before \x7b\n    content: \x27\x27;\n    position: absolute;\n    top: 0;\n    left: 0;\n    right: 0;\n    bottom: 0;\n    background: radial\x2dgradient(circle at 30% 50%, rgba(0, 255, 170, 0.1) 0%, transparent 50%);\n    z\x2dindex: \x2d1;\n\x7d\n\n.hero .container \x7b\n    display: flex;\n    align\x2ditems: center;\n    justify\x2dcontent: space\x2dbetween;\n    gap: 3rem;\n\x7d\n\n.hero\x2dcontent \x7b\n    flex: 1;\n\x7d\n\n.glow\x2dtext \x7b\n    font\x2dsize: 3.5rem;\n    margin\x2dbottom: 1.5rem;\n    background: linear\x2dgradient(90deg, var(\x2d\x2dprimary\x2dcolor), var(\x2d\x2daccent\x2dcolor));\n    \x2dwebkit\x2dbackground\x2dclip: text;\n    \x2dwebkit\x2dtext\x2dfill\x2dcolor: transparent;\n    text\x2dshadow: 0 0 30px rgba(0, 255, 170, 0.3);\n    animation: glow 2s infinite alternate;\n\x7d\n\n@keyframes glow \x7b\n    from \x7b\n        text\x2dshadow: 0 0 20px rgba(0, 255, 170, 0.3);\n    \x7d\n    to \x7b\n        text\x2dshadow: 0 0 30px rgba(0, 255, 170, 0.6);\n    \x7d\n\x7d\n\n.subtitle \x7b\n    font\x2dsize: 1.2rem;\n    color: var(\x2d\x2dtext\x2dsecondary);\n    margin\x2dbottom: 2rem;\n    max\x2dwidth: 600px;\n\x7d\n\n.cta\x2dbuttons \x7b\n    display: flex;\n    gap: 1rem;\n    flex\x2dwrap: wrap;\n\x7d\n\n.btn \x7b\n    padding: 1rem 2rem;\n    border: none;\n    border\x2dradius: 12px;\n    font\x2dsize: 1rem;\n    font\x2dweight: 600;\n    cursor: pointer;\n    display: flex;\n    align\x2ditems: center;\n    gap: 10px;\n    transition: var(\x2d\x2dtransition);\n\x7d\n\n.primary\x2dbtn \x7b\n    background: linear\x2dgradient(135deg, var(\x2d\x2dprimary\x2dcolor), var(\x2d\x2dsecondary\x2dcolor));\n    color: var(\x2d\x2ddark\x2dbg);\n\x7d\n\n.primary\x2dbtn:hover \x7b\n    transform: translateY(\x2d3px);\n    box\x2dshadow: var(\x2d\x2dshadow\x2dglow);\n\x7d\n\n.secondary\x2dbtn \x7b\n    background: rgba(0, 255, 170, 0.1);\n    color: var(\x2d\x2dprimary\x2dcolor);\n    border: 2px solid var(\x2d\x2dborder\x2dglow);\n\x7d\n\n.secondary\x2dbtn:hover \x7b\n    background: rgba(0, 255, 170, 0.2);\n    transform: translateY(\x2d3px);\n\x7d\n\n.hero\x2dimage \x7b\n    flex: 1;\n    display: flex;\n    justify\x2dcontent: center;\n    align\x2ditems: center;\n\x7d\n\n.glow\x2dcircle \x7b\n    width: 300px;\n    height: 300px;\n    background: radial\x2dgradient(circle, var(\x2d\x2dprimary\x2dcolor) 0%, transparent 70%);\n    border\x2dradius: 50%;\n    filter: blur(40px);\n    opacity: 0.3;\n    animation: float 6s infinite ease\x2din\x2dout;\n\x7d\n\n@keyframes float \x7b\n    0%, 100% \x7b\n        transform: translateY(0) scale(1);\n    \x7d\n    50% \x7b\n        transform: translateY(\x2d20px) scale(1.1);\n    \x7d\n\x7d\n\n/* Features Section */\n.features \x7b\n    padding: 80px 0;\n\x7d\n\n.section\x2dtitle \x7b\n    text\x2dalign: center;\n    font\x2dsize: 2.5rem;\n    margin\x2dbottom: 3rem;\n    color: var(\x2d\x2dprimary\x2dcolor);\n\x7d\n\n.features\x2dgrid \x7b\n    display: grid;\n    grid\x2dtemplate\x2dcolumns: repeat(auto\x2dfit, minmax(300px, 1fr));\n    gap: 2rem;\n\x7d\n\n.feature\x2dcard \x7b\n    background: var(\x2d\x2dcard\x2dbg);\n    border: 1px solid var(\x2d\x2dborder\x2dglow);\n    border\x2dradius: 20px;\n    padding: 2rem;\n    text\x2dalign: center;\n    transition: var(\x2d\x2dtransition);\n\x7d\n\n.feature\x2dcard:hover \x7b\n    transform: translateY(\x2d10px);\n    border\x2dcolor: var(\x2d\x2dprimary\x2dcolor);\n    box\x2dshadow: var(\x2d\x2dshadow\x2dglow);\n\x7d\n\n.feature\x2dicon \x7b\n    font\x2dsize: 3rem;\n    margin\x2dbottom: 1.5rem;\n    color: var(\x2d\x2dprimary\x2dcolor);\n\x7d\n\n.feature\x2dcard h3 \x7b\n    font\x2dsize: 1.5rem;\n    margin\x2dbottom: 1rem;\n    color: var(\x2d\x2dtext\x2dprimary);\n\x7d\n\n.feature\x2dcard p \x7b\n    color: var(\x2d\x2dtext\x2dsecondary);\n\x7d\n\n/* Footer */\n.footer \x7b\n    background: rgba(10, 10, 26, 0.9);\n    border\x2dtop: 1px solid var(\x2d\x2dborder\x2dglow);\n    padding: 2rem 0;\n    margin\x2dtop: 4rem;\n\x7d\n\n.footer .container \x7b\n    display: flex;\n    justify\x2dcontent: space\x2dbetween;\n    align\x2ditems: center;\n    flex\x2dwrap: wrap;\n    gap: 1rem;\n\x7d\n\n.footer p \x7b\n    color: var(\x2d\x2dtext\x2dsecondary);\n\x7d\n\n.social\x2dlinks \x7b\n    display: flex;\n    gap: 1rem;\n\x7d\n\n.social\x2dlinks a \x7b\n    color: var(\x2d\x2dtext\x2dsecondary);\n    font\x2dsize: 1.5rem;\n    transition: var(\x2d\x2dtransition);\n\x7d\n\n.social\x2dlinks a:hover \x7b\n    color: var(\x2d\x2dprimary\x2dcolor);\n    transform: translateY(\x2d3px);\n\x7d\n\n/* Responsive Design */\n@media (max\x2dwidth: 768px) \x7b\n    .nav\x2dlinks \x7b\n        display: none;\n    \x7d\n    \n    .menu\x2dtoggle \x7b\n        display: block;\n    \x7d\n    \n    .hero .container \x7b\n        flex\x2ddirection: column;\n        text\x2dalign: center;\n    \x7d\n    \n    .glow\x2dtext \x7b\n        font\x2dsize: 2.5rem;\n    \x7d\n    \n    .cta\x2dbuttons \x7b\n        justify\x2dcontent: center;\n    \x7d\n    \n    .glow\x2dcircle \x7b\n        width: 200px;\n        height: 200px;\n    \x7d\n    \n    .footer .container \x7b\n        flex\x2ddirection: column;\n        text\x2dalign: center;\n    \x7d\n\x7d\n\n@media (max\x2dwidth: 480px) \x7b\n    .glow\x2dtext \x7b\n        font\x2dsize: 2rem;\n    \x7d\n    \n    .btn \x7b\n        padding: 0.8rem 1.5rem;\n        font\x2dsize: 0.9rem;\n    \x7d\n    \n    .features\x2dgrid \x7b\n        grid\x2dtemplate\x2dcolumns: 1fr;\n    \x7d\n\x7d\n\n/* Custom Scrollbar */\n::\x2dwebkit\x2dscrollbar \x7b\n    width: 10px;\n\x7d\n\n::\x2dwebkit\x2dscrollbar\x2dtrack \x7b\n    background: var(\x2d\x2ddark\x2dbg);\n\x7d\n\n::\x2dwebkit\x2dscrollbar\x2dthumb \x7b\n    background: linear\x2dgradient(180deg, var(\x2d\x2dprimary\x2dcolor), var(\x2d\x2dsecondary\x2dcolor));\n    border\x2dradius: 5px;\n\x7d\n\n::\x2dwebkit\x2dscrollbar\x2dthumb:hover \x7b\n    background: linear\x2dgradient(180deg, var(\x2d\x2daccent\x2dcolor), var(\x2d\x2dprimary\x2dcolor));\n\x7d"

/-- Fixed fallback script of the fallback template; a constant, independent of the description. Transcribed from generateFallbackTemplate in src/server.js. -/
def fbJs : String := "// Happy AI Website Builder \x2d JavaScript\nconsole.log(\x27%c✨ Happy AI Website Loaded ✨\x27, \x27color: #00ffaa; font\x2dsize: 16px; font\x2dweight: bold;\x27);\nconsole.log(\x27%cBuilt with ❤️ using Happy AI Builder\x27, \x27color: #a0a0ff;\x27);\n\n// Initialize when page loads\ndocument.addEventListener(\x27DOMContentLoaded\x27, function() \x7b\n    console.log(\x27🚀 Initializing website...\x27);\n    \n    // Initialize all features\n    initNavigation();\n    initAnimations();\n    initInteractiveElements();\n    initMobileMenu();\n    \n    console.log(\x27✅ Website initialized successfully!\x27);\n\x7d);\n\n// Navigation initialization\nfunction initNavigation() \x7b\n    const navLinks = document.querySelectorAll(\x27.nav\x2dlinks a\x27);\n    \n    navLinks.forEach(link => \x7b\n        link.addEventListener(\x27click\x27, function(e) \x7b\n            e.preventDefault();\n            \n            const targetId = this.getAttribute(\x27href\x27);\n            if (targetId && targetId !== \x27#\x27) \x7b\n                const targetElement = document.querySelector(targetId);\n                \n                if (targetElement) \x7b\n                    // Smooth scroll to section\n                    window.scrollTo(\x7b\n                        top: targetElement.offsetTop \x2d 80,\n                        behavior: \x27smooth\x27\n                    \x7d);\n                    \n                    // Update active link\n                    navLinks.forEach(l => l.classList.remove(\x27active\x27));\n                    this.classList.add(\x27active\x27);\n                \x7d\n            \x7d\n        \x7d);\n    \x7d);\n    \n    // Add scroll spy for navigation\n    window.addEventListener(\x27scroll\x27, function() \x7b\n        const sections = document.querySelectorAll(\x27section\x27);\n        const scrollPos = window.scrollY + 100;\n        \n        sections.forEach(section => \x7b\n            const sectionTop = section.offsetTop;\n            const sectionHeight = section.clientHeight;\n            const sectionId = section.getAttribute(\x27id\x27);\n            \n            if (scrollPos >= sectionTop && scrollPos < sectionTop + sectionHeight) \x7b\n                navLinks.forEach(link => \x7b\n                    link.classList.remove(\x27active\x27);\n                    if (link.getAttribute(\x27href\x27) === \x60#$\x7bsectionId\x7d\x60) \x7b\n                        link.classList.add(\x27active\x27);\n                    \x7d\n                \x7d);\n            \x7d\n        \x7d);\n    \x7d);\n\x7d\n\n// Animations initialization\nfunction initAnimations() \x7b\n    // Intersection Observer for scroll animations\n    const observerOptions = \x7b\n        root: null,\n        rootMargin: \x270px\x27,\n        threshold: 0.1\n    \x7d;\n    \n    const observer = new IntersectionObserver(function(entries) \x7b\n        entries.forEach(entry => \x7b\n            if (entry.isIntersecting) \x7b\n                entry.target.classList.add(\x27animate\x2din\x27);\n            \x7d\n        \x7d);\n    \x7d, observerOptions);\n    \n    // Observe feature cards\n    const featureCards = document.querySelectorAll(\x27.feature\x2dcard\x27);\n    featureCards.forEach(card => \x7b\n        observer.observe(card);\n        card.style.opacity = \x270\x27;\n        card.style.transform = \x27translateY(20px)\x27;\n        card.style.transition = \x27all 0.6s ease\x27;\n    \x7d);\n    \n    // Add CSS for animations\n    const style = document.createElement(\x27style\x27);\n    style.textContent = \x60\n        .animate\x2din \x7b\n            opacity: 1 !important;\n            transform: translateY(0) !important;\n        \x7d\n        \n        .feature\x2dcard:nth\x2dchild(1) \x7b transition\x2ddelay: 0.1s; \x7d\n        .feature\x2dcard:nth\x2dchild(2) \x7b transition\x2ddelay: 0.2s; \x7d\n        .feature\x2dcard:nth\x2dchild(3) \x7b transition\x2ddelay: 0.3s; \x7d\n        \n        @keyframes fadeInUp \x7b\n            from \x7b\n                opacity: 0;\n                transform: translateY(30px);\n            \x7d\n            to \x7b\n                opacity: 1;\n                transform: translateY(0);\n            \x7d\n        \x7d\n    \x60;\n    document.head.appendChild(style);\n\x7d\n\n// Interactive elements initialization\nfunction initInteractiveElements() \x7b\n    // Button click effects\n    const buttons = document.querySelectorAll(\x27.btn\x27);\n    \n    buttons.forEach(button => \x7b\n        button.addEventListener(\x27click\x27, function(e) \x7b\n            // Create ripple effect\n            const ripple = document.createElement(\x27span\x27);\n            const rect = this.getBoundingClientRect();\n            const size = Math.max(rect.width, rect.height);\n            const x = e.clientX \x2d rect.left \x2d size / 2;\n            const y = e.clientY \x2d rect.top \x2d size / 2;\n            \n            ripple.style.cssText = \x60\n                position: absolute;\n                border\x2dradius: 50%;\n                background: rgba(255, 255, 255, 0.7);\n                transform: scale(0);\n                animation: ripple\x2danimation 0.6s linear;\n                width: $\x7bsize\x7dpx;\n                height: $\x7bsize\x7dpx;\n                top: $\x7by\x7dpx;\n                left: $\x7bx\x7dpx;\n                pointer\x2devents: none;\n            \x60;\n            \n            this.appendChild(ripple);\n            \n            // Remove ripple after animation\n            setTimeout(() => \x7b\n                ripple.remove();\n            \x7d, 600);\n        \x7d);\n    \x7d);\n    \n    // Add ripple animation CSS\n    const rippleStyle = document.createElement(\x27style\x27);\n    rippleStyle.textContent = \x60\n        @keyframes ripple\x2danimation \x7b\n            to \x7b\n                transform: scale(4);\n                opacity: 0;\n            \x7d\n        \x7d\n        \n        .btn \x7b\n            position: relative;\n            overflow: hidden;\n        \x7d\n    \x60;\n    document.head.appendChild(rippleStyle);\n    \n    // Glow effect on hover for feature cards\n    const featureCards = document.querySelectorAll(\x27.feature\x2dcard\x27);\n    \n    featureCards.forEach(card => \x7b\n        card.addEventListener(\x27mouseenter\x27, function() \x7b\n            this.style.boxShadow = \x270 15px 40px rgba(0, 255, 170, 0.4)\x27;\n        \x7d);\n        \n        card.addEventListener(\x27mouseleave\x27, function() \x7b\n            this.style.boxShadow = \x27\x27;\n        \x7d);\n    \x7d);\n\x7d\n\n// Mobile menu initialization\nfunction initMobileMenu() \x7b\n    const menuToggle = document.querySelector(\x27.menu\x2dtoggle\x27);\n    const navLinks = document.querySelector(\x27.nav\x2dlinks\x27);\n    \n    if (menuToggle && navLinks) \x7b\n        menuToggle.addEventListener(\x27click\x27, function() \x7b\n            navLinks.style.display = navLinks.style.display === \x27flex\x27 ? \x27none\x27 : \x27flex\x27;\n            \n            if (navLinks.style.display === \x27flex\x27) \x7b\n                navLinks.style.cssText = \x60\n                    display: flex;\n                    flex\x2ddirection: column;\n                    position: absolute;\n                    top: 100%;\n                    left: 0;\n                    right: 0;\n                    background: var(\x2d\x2dcard\x2dbg);\n                    backdrop\x2dfilter: blur(20px);\n                    padding: 1rem;\n                    border\x2dbottom: 2px solid var(\x2d\x2dborder\x2dglow);\n                    box\x2dshadow: 0 10px 30px rgba(0, 0, 0, 0.3);\n                    z\x2dindex: 1000;\n                \x60;\n                \n                // Animate menu items\n                const links = navLinks.querySelectorAll(\x27a\x27);\n                links.forEach((link, index) => \x7b\n                    link.style.opacity = \x270\x27;\n                    link.style.transform = \x27translateY(\x2d10px)\x27;\n                    link.style.transition = \x27all 0.3s ease\x27;\n                    \n                    setTimeout(() => \x7b\n                        link.style.opacity = \x271\x27;\n                        link.style.transform = \x27translateY(0)\x27;\n                    \x7d, index * 100);\n                \x7d);\n            \x7d\n        \x7d);\n        \n        // Close menu when clicking outside\n        document.addEventListener(\x27click\x27, function(e) \x7b\n            if (!menuToggle.contains(e.target) && !navLinks.contains(e.target)) \x7b\n                if (window.innerWidth <= 768) \x7b\n                    navLinks.style.display = \x27none\x27;\n                \x7d\n            \x7d\n        \x7d);\n        \n        // Handle window resize\n        window.addEventListener(\x27resize\x27, function() \x7b\n            if (window.innerWidth > 768) \x7b\n                navLinks.style.display = \x27flex\x27;\n                navLinks.style.cssText = \x27\x27;\n            \x7d else \x7b\n                navLinks.style.display = \x27none\x27;\n            \x7d\n        \x7d);\n    \x7d\n\x7d\n\n// Alert function for buttons\nfunction showAlert(message) \x7b\n    alert(\x60🎉 $\x7bmessage\x7d\x60);\n    \n    // Add visual feedback\n    const alertSound = document.createElement(\x27audio\x27);\n    alertSound.innerHTML = \x27<source src=\"https://assets.mixkit.co/sfx/preview/mixkit\x2dcorrect\x2danswer\x2dtone\x2d2870.mp3\" type=\"audio/mpeg\">\x27;\n    document.body.appendChild(alertSound);\n    \n    try \x7b\n        alertSound.play();\n    \x7d catch (error) \x7b\n        console.log(\x27Audio play failed:\x27, error);\n    \x7d\n    \n    setTimeout(() => \x7b\n        alertSound.remove();\n    \x7d, 1000);\n\x7d\n\n// Current year in footer\nfunction updateCurrentYear() \x7b\n    const yearElement = document.querySelector(\x27.footer p\x27);\n    if (yearElement) \x7b\n        const currentYear = new Date().getFullYear();\n        yearElement.innerHTML = yearElement.innerHTML.replace(\x272024\x27, currentYear);\n    \x7d\n\x7d\n\n// Initialize current year\nupdateCurrentYear();\n\n// Performance monitoring\nlet loadTime = window.performance.timing.domContentLoadedEventEnd \x2d window.performance.timing.navigationStart;\nconsole.log(\x60⏱️ Page load time: $\x7bloadTime\x7dms\x60);\n\n// Add loading state\nwindow.addEventListener(\x27load\x27, function() \x7b\n    document.body.classList.add(\x27loaded\x27);\n    \n    // Add loaded class for animations\n    setTimeout(() => \x7b\n        document.body.style.opacity = \x271\x27;\n        document.body.style.transition = \x27opacity 0.5s ease\x27;\n    \x7d, 100);\n\x7d);\n\n// Error handling\nwindow.addEventListener(\x27error\x27, function(e) \x7b\n    console.error(\x27🚨 Website Error:\x27, e.error);\n    \n    // Show user\x2dfriendly error message\n    if (!document.getElementById(\x27error\x2dtoast\x27)) \x7b\n        const errorToast = document.createElement(\x27div\x27);\n        errorToast.id = \x27error\x2dtoast\x27;\n        errorToast.style.cssText = \x60\n            position: fixed;\n            bottom: 20px;\n            right: 20px;\n            background: rgba(255, 0, 0, 0.9);\n            color: white;\n            padding: 1rem 1.5rem;\n            border\x2dradius: 10px;\n            z\x2dindex: 9999;\n            animation: slideIn 0.3s ease;\n            max\x2dwidth: 300px;\n            border\x2dleft: 4px solid #ff4444;\n        \x60;\n        \n        errorToast.innerHTML = \x60\n            <strong>⚠️ Something went wrong</strong>\n            <p style=\"margin\x2dtop: 5px; font\x2dsize: 0.9rem;\">Please refresh the page</p>\n        \x60;\n        \n        document.body.appendChild(errorToast);\n        \n        // Auto remove after 5 seconds\n        setTimeout(() => \x7b\n            errorToast.style.animation = \x27slideOut 0.3s ease\x27;\n            setTimeout(() => errorToast.remove(), 300);\n        \x7d, 5000);\n    \x7d\n\x7d);\n\n// Add animation styles\nconst animationStyles = document.createElement(\x27style\x27);\nanimationStyles.textContent = \x60\n    @keyframes slideIn \x7b\n        from \x7b\n            transform: translateX(100%);\n            opacity: 0;\n        \x7d\n        to \x7b\n            transform: translateX(0);\n            opacity: 1;\n        \x7d\n    \x7d\n    \n    @keyframes slideOut \x7b\n        from \x7b\n            transform: translateX(0);\n            opacity: 1;\n        \x7d\n        to \x7b\n            transform: translateX(100%);\n            opacity: 0;\n        \x7d\n    \x7d\n    \n    body \x7b\n        opacity: 0;\n    \x7d\n    \n    body.loaded \x7b\n        opacity: 1;\n    \x7d\n\x60;\ndocument.head.appendChild(animationStyles);\n\n// Export functions for global use\nwindow.HappyAI = \x7b\n    showAlert: showAlert,\n    initNavigation: initNavigation,\n    initAnimations: initAnimations\n\x7d;\n\nconsole.log(\x27🌟 Happy AI Website ready!\x27);"

/-- The fixed fallback site markup of src/server.js, assembled exactly as the
template literal of `generateFallbackTemplate` does: the description is
interpolated into the page title and the hero heading, and the current year
into the footer. -/
def fallbackHtml (message : String) (year : Nat) : String :=
  fbHtml0 ++ message ++ fbHtml1 ++ message ++ fbHtml2 ++ toString year ++ fbHtml3

/-- Embedding of `generateFallbackTemplate(message)` (src/server.js): the
deterministic three-field fallback artifact.  `year` models the
`new Date().getFullYear()` draw inside the template (the `templateId`
constant of the source is computed but never used). -/
def generateFallbackTemplate (message : String) (year : Nat) : Code :=
  { html := fallbackHtml message year
    css := fbCss
    js := fbJs }

/-- Result shape of `generateAIResponse`: an assistant message plus the
three-field code artifact. -/
structure ChatResult where
  message : String
  code : Code
deriving DecidableEq, Repr

/-- Embedding of `generateFallbackResponse(message)` (src/server.js and
src/unnamed/part_001). -/
def generateFallbackResponse (message : String) (year : Nat) : ChatResult :=
  { message := "I created a \"" ++ message ++ "\" website for you! 🎉"
    code := generateFallbackTemplate message year }

/-- The parsed JSON body the model is asked to return; any of the four
fields may be absent (or empty, which JavaScript treats the same through
`||`). -/
structure AiData where
  html : Option String
  css : Option String
  js : Option String
  message : Option String
deriving DecidableEq, Repr

/-- Outcome of the single language-model call of `generateAIResponse`:
`failure` covers a thrown request (timeout, network error, or non-2xx
status, all of which make axios throw); `parseError` a 2xx body whose
content `JSON.parse` rejects; `parsed` a body parsed into the expected
shape. -/
inductive ModelOutcome where
  | failure
  | parseError
  | parsed (data : AiData)
deriving DecidableEq, Repr

/-- Embedding of `generateAIResponse(message, currentCode)` (src/server.js
and src/unnamed/part_001, identical in both).  `apiKey` is the presence of
`DEEPSEEK_API_KEY`; `outcome` the model call result.  `currentCode` is
omitted: the source uses it only inside the outbound prompt text. -/
def generateAIResponse (apiKey : Bool) (outcome : ModelOutcome)
    (message : String) (year : Nat) : ChatResult :=
  if apiKey then
    match outcome with
    | .parsed aiData =>
      { message := jsOrStr aiData.message "I created a website for you!"
        code :=
          { html := jsOrStr aiData.html (generateFallbackTemplate message year).html
            css := jsOrStr aiData.css (generateFallbackTemplate message year).css
            js := jsOrStr aiData.js (generateFallbackTemplate message year).js } }
    | .parseError => generateFallbackResponse message year
    | .failure => generateFallbackResponse message year
  else
    generateFallbackResponse message year
/-- Model of JavaScript `String.prototype.trim`: strip leading and trailing
whitespace.  (Defined by structural recursion on the character list so that
it evaluates by `decide`.) -/
def jsTrim (s : String) : String :=
  ⟨((s.data.dropWhile Char.isWhitespace).reverse.dropWhile Char.isWhitespace).reverse⟩

/-- The chat endpoint minimum message length: `/api/chat` of
src/unnamed/part_001 and src/server.js rejects `message.trim().length < 3`. -/
def chatMinMessageLength : Nat := 3

/-- The generate-website endpoint minimum description length:
`/api/generate-website` of src/unnamed/part_000 rejects
`description.length < 10`. -/
def generateMinDescriptionLength : Nat := 10

/-- The JSON body sent by the `/api/chat` handler, together with the HTTP
status code it was sent with. -/
structure ChatHttpResponse where
  statusCode : Nat
  success : Bool
  response : String
  code : Option Code
deriving DecidableEq, Repr

/-- The validation rejection of `/api/chat` (`res.status(400).json(...)`). -/
def chatInvalidResponse : ChatHttpResponse :=
  { statusCode := 400
    success := false
    response := "Please enter a valid message (min 3 characters)"
    code := none }

/-- True when `/api/chat` rejects the request body `message`
(`!message || message.trim().length < 3`). -/
def chatRejects (message? : Option String) : Bool :=
  match message? with
  | none => true
  | some m => m = "" || (jsTrim m).length < chatMinMessageLength

/-- Embedding of the `/api/chat` handler (src/unnamed/part_001 and
src/server.js, identical).  `handlerThrows` models an exception raised
inside the `try` block after validation passed (the source outermost
`catch`, which answers with the fallback template built from the fixed
string `AI generated website`). -/
def chatHandler (apiKey : Bool) (message? : Option String)
    (outcome : ModelOutcome) (year : Nat) (handlerThrows : Bool) :
    ChatHttpResponse :=
  if chatRejects message? then
    chatInvalidResponse
  else if handlerThrows then
    { statusCode := 200
      success := false
      response := "I created a website for you! Check the preview."
      code := some (generateFallbackTemplate "AI generated website" year) }
  else
    match message? with
    | none => chatInvalidResponse
    | some m =>
      let aiResponse := generateAIResponse apiKey outcome m year
      { statusCode := 200
        success := true
        response := aiResponse.message
        code := some aiResponse.code }

/-- Fallback HTML of src/unnamed/part_000 (`createFallbackHTML`): the
description is interpolated into the title (truncated to 50 characters)
and the hero section. -/
def createFallbackHTML (description : String) : String :=
  "<!DOCTYPE html>\n<html lang=\"en\">\n<head>\n    <meta charset=\"UTF\x2d8\">\n    <meta name=\"viewport\" content=\"width=device\x2dwidth, initial\x2dscale=1.0\">\n    <title>"
    ++ description.take 50 ++
    "</title>\n    <link rel=\"stylesheet\" href=\"style.css\">\n</head>\n<body>\n    <div class=\"container\">\n        <header>\n            <h1>Welcome to Your Website</h1>\n            <p>Created with AI Website Factory</p>\n        </header>\n        <main>\n            <section class=\"hero\">\n                <h2>"
    ++ description ++
    "</h2>\n                <p>This website was generated automatically.</p>\n            </section>\n        </main>\n        <footer>\n            <p>Managed by AI Agent</p>\n        </footer>\n    </div>\n    <script src=\"script.js\"></script>\n</body>\n</html>"

/-- Fallback CSS of src/unnamed/part_000 (`createFallbackCSS`). -/
def createFallbackCSS : String :=
  "* \x7b margin: 0; padding: 0; box\x2dsizing: border\x2dbox; \x7d\nbody \x7b font\x2dfamily: system\x2dui; background: #0f172a; color: white; \x7d\n.container \x7b max\x2dwidth: 1200px; margin: 0 auto; padding: 20px; \x7d"

/-- Fallback JS of src/unnamed/part_000 (`createFallbackJS`). -/
def createFallbackJS : String :=
  "console.log(\x27Website loaded\x27);"

/-- Outcome of the model call made by `generateWebsiteCode`
(src/unnamed/part_000): the source `try` falls back on any thrown request
or parse error, otherwise uses the parsed JSON as the code object. -/
inductive Gen0Outcome where
  | failure
  | parsed (code : Code)
deriving DecidableEq, Repr

/-- Embedding of `generateWebsiteCode(description)` (src/unnamed/part_000):
no per-field fallback here — the whole triple is replaced on failure. -/
def generateWebsiteCode (description : String) (outcome : Gen0Outcome) : Code :=
  match outcome with
  | .parsed code => code
  | .failure =>
    { html := createFallbackHTML description
      css := createFallbackCSS
      js := createFallbackJS }

/-- Data returned by GitHub repository-creation call as used by
src/unnamed/part_000. -/
structure Repo0Data where
  ownerLogin : String
  name : String
  htmlUrl : String
  fullName : String
deriving DecidableEq, Repr

/-- External outcomes of one `createGitHubRepository(code, agentId)` run in
src/unnamed/part_000: repository creation, then one file-creation call per
index (0 = index.html, 1 = style.css, 2 = script.js). -/
structure Gh0World where
  createRepo : Except Unit Repo0Data
  fileCreate : Nat → Except Unit Unit

/-- Result of `createGitHubRepository` in src/unnamed/part_000. -/
structure Repo0Info where
  url : String
  fullName : String
deriving DecidableEq, Repr

/-- Embedding of `createGitHubRepository(code, agentId)` of
src/unnamed/part_000: all steps sit in one `try`, so any failure is
converted to the single error message. -/
def createGitHubRepository0 (w : Gh0World) : Except String Repo0Info :=
  match w.createRepo with
  | .error _ => .error "Failed to create GitHub repository"
  | .ok repo =>
    match w.fileCreate 0, w.fileCreate 1, w.fileCreate 2 with
    | .ok _, .ok _, .ok _ => .ok { url := repo.htmlUrl, fullName := repo.fullName }
    | _, _, _ => .error "Failed to create GitHub repository"

/-- Embedding of `deployToVercel(repoFullName)` of src/unnamed/part_000. -/
def deployToVercel0 (outcome : Except Unit String) : Except String String :=
  match outcome with
  | .ok url => .ok ("https://" ++ url)
  | .error _ => .error "Failed to deploy to Vercel"

/-- The JSON body sent by `/api/generate-website` (src/unnamed/part_000)
plus its HTTP status code. -/
structure GenerateResponse where
  statusCode : Nat
  success : Bool
  error : Option String
  url : Option String
  github : Option String
  message : Option String
  agentId : Option String
deriving DecidableEq, Repr

/-- The validation rejection of `/api/generate-website`. -/
def generateInvalidResponse : GenerateResponse :=
  { statusCode := 400
    success := false
    error := some "Please provide detailed description"
    url := none, github := none, message := none, agentId := none }

/-- Embedding of the `/api/generate-website` handler (src/unnamed/part_000):
validate the description length, then generate → publish → deploy, with the
outer `catch` converting any step exception into a 500 response.  (The
agent-map bookkeeping and the payloads passed between the steps are not part
of the modelled observable state.) -/
def generateWebsiteHandler (description? : Option String) (agentId : String)
    (gen : Gen0Outcome) (gw : Gh0World) (vw : Except Unit String) :
    GenerateResponse :=
  match description? with
  | none => generateInvalidResponse
  | some description =>
    if description = "" || description.length < generateMinDescriptionLength then
      generateInvalidResponse
    else
      let _websiteCode := generateWebsiteCode description gen
      match createGitHubRepository0 gw with
      | .error msg =>
        { statusCode := 500, success := false, error := some msg
          url := none, github := none, message := none, agentId := none }
      | .ok githubRepo =>
        match deployToVercel0 vw with
        | .error msg =>
          { statusCode := 500, success := false, error := some msg
            url := none, github := none, message := none, agentId := none }
        | .ok vercelUrl =>
          { statusCode := 200, success := true, error := none
            url := some vercelUrl, github := some githubRepo.url
            message := some "Website created and deployed!"
            agentId := some agentId }
/-- An error thrown by a GitHub API call: the HTTP status (absent for plain
`Error` objects) and the message. -/
structure GhErr where
  status : Option Nat
  message : String
deriving DecidableEq, Repr

/-- The outer `catch` of `createGitHubRepository` (src/unnamed/part_001):
a 401 is rethrown as an invalid-token error, a 422 as a name-conflict
error, anything else unchanged. -/
def mapGhError (e : GhErr) : GhErr :=
  if e.status = some 401 then
    { status := none, message := "Invalid GitHub token. Please check your GITHUB_TOKEN." }
  else if e.status = some 422 then
    { status := none, message := "Repository might already exist or name is invalid." }
  else e

/-- Data returned by GitHub repository-creation call
(`repo.data` fields used by src/unnamed/part_001). -/
structure RepoData where
  htmlUrl : String
  cloneUrl : String
deriving DecidableEq, Repr

/-- External outcomes of one `createGitHubRepository(project)` run
(src/unnamed/part_001): repository creation, authenticated-identity lookup
(`none` models a failed lookup), and one file-creation call per index
(0 = index.html, 1 = style.css, 2 = script.js, 3 = README.md). -/
structure GithubWorld where
  createRepo : Except GhErr RepoData
  userLookup : Option String
  fileCreate : Nat → Except GhErr Unit

/-- Result object of `createGitHubRepository` (src/unnamed/part_001). -/
structure RepoInfo where
  url : String
  repoName : String
  cloneUrl : String
deriving DecidableEq, Repr

/-- The four file paths created by `createGitHubRepository`
(src/unnamed/part_001), in source order. -/
def ghFilePaths : List String := ["index.html", "style.css", "script.js", "README.md"]

/-- Embedding of `getGitHubUsername()` (src/unnamed/part_001): a failed
identity lookup is caught and replaced by the fixed placeholder login. -/
def getGitHubUsername (lookup : Option String) : String :=
  match lookup with
  | some login => login
  | none => "happy-ai-user"

/-- Embedding of `createGitHubRepository(project)` (src/unnamed/part_001).
Returns the thrown-or-returned result together with the list of repository
file paths whose creation call succeeded (the observable effect on the
remote repository; file payloads are not modelled).  The first
file-creation call sits directly in the outer `try`, so its failure is
rethrown through `mapGhError`; the three later calls each sit in their own
inner `try` whose `catch` only logs. -/
def createGitHubRepository (token : Bool) (_project : Project)
    (w : GithubWorld) (now : Nat) : Except GhErr RepoInfo × List String :=
  if !token then
    (.error { status := none, message := "GitHub token not configured" }, [])
  else
    match w.createRepo with
    | .error e => (.error (mapGhError e), [])
    | .ok repo =>
      let username := getGitHubUsername w.userLookup
      let repoName := "happy-website-" ++ toString now
      match w.fileCreate 0 with
      | .error e => (.error (mapGhError e), [])
      | .ok _ =>
        let laterFiles := (List.range 3).filterMap fun j =>
          match w.fileCreate (j + 1) with
          | .ok _ => some (ghFilePaths.getD (j + 1) "")
          | .error _ => none
        (.ok { url := repo.htmlUrl
               repoName := username ++ "/" ++ repoName
               cloneUrl := repo.cloneUrl },
         "index.html" :: laterFiles)

/-- Mock GitHub repository URL used by `/api/deploy` when no
`GITHUB_TOKEN` is configured (src/unnamed/part_001). -/
def mockGithubUrl (t : Nat) : String :=
  "https://github.com/happy-ai/website-" ++ toString t

/-- Mock GitHub repository name used alongside `mockGithubUrl`. -/
def mockGithubRepoName (t : Nat) : String :=
  "happy-ai/website-" ++ toString t

/-- Mock Vercel URL (`https://happy-website-${Date.now()}.vercel.app`). -/
def mockVercelUrl (t : Nat) : String :=
  "https://happy-website-" ++ toString t ++ ".vercel.app"

/-- Fallback Vercel URL of the `/api/deploy` outer catch
(`https://happy-fallback-${Date.now()}.vercel.app`). -/
def fallbackVercelUrl (t : Nat) : String :=
  "https://happy-fallback-" ++ toString t ++ ".vercel.app"

/-- A URL matching the mock-Vercel-URL pattern. -/
def isMockVercelUrl (s : String) : Prop :=
  ∃ t : Nat, s = mockVercelUrl t

/-- A URL matching the mock-GitHub-repository pattern. -/
def isMockGithubUrl (s : String) : Prop :=
  ∃ t : Nat, s = mockGithubUrl t

/-- External outcomes of one `deployToVercel` run (src/unnamed/part_001):
the project-based deployment-creation call and the direct file-upload
deployment-creation call; a success carries `deployment.data.url`. -/
structure VercelWorld where
  apiDeploy : Except Unit String
  directDeploy : Except Unit String

/-- Embedding of `deployToVercel(repoName, project)` (src/unnamed/part_001).
Never throws: the single `catch` turns any failure into a mock URL.
Request payloads (including the inline file set of the direct strategy) are
not modelled. -/
def deployToVercel (vercelToken vercelProjectId : Bool) (_repoName : String)
    (_project : Project) (vw : VercelWorld) (now : Nat) : String :=
  if vercelToken && vercelProjectId then
    match vw.apiDeploy with
    | .ok u => "https://" ++ u ++ ".vercel.app"
    | .error _ => mockVercelUrl now
  else
    match vw.directDeploy with
    | .ok u => "https://" ++ u ++ ".vercel.app"
    | .error _ => mockVercelUrl now

/-- The clock draws (`Date.now()` call sites) of one `/api/deploy` run. -/
structure DeployClock where
  ghNow : Nat
  mockGhUrlNow : Nat
  mockGhRepoNow : Nat
  mockVercelNow : Nat
  vercelNow : Nat
  fbNow : Nat

/-- The JSON body sent by `/api/deploy` plus its HTTP status code. -/
structure DeployResponse where
  statusCode : Nat
  success : Bool
  url : String
  github : String
  message : Option String
  error : Option String
deriving DecidableEq, Repr

/-- The `githubData` value of the `/api/deploy` handler. -/
structure GithubStepData where
  url : String
  repoName : String
deriving DecidableEq, Repr

/-- Embedding of the `/api/deploy` handler (src/unnamed/part_001):
validate the project, create (or mock) the GitHub repository, deploy (or
mock) on Vercel, and let the outer `catch` turn any exception into the
demo-URL response. -/
def deployHandler (ghToken vercelToken vercelProjectId : Bool)
    (project? : Option Project) (gw : GithubWorld) (vw : VercelWorld)
    (ck : DeployClock) : DeployResponse :=
  match project? with
  | none =>
    { statusCode := 400, success := false, url := "", github := ""
      message := none, error := some "Invalid project data" }
  | some project =>
    if !jsTruthyOpt project.html then
      { statusCode := 400, success := false, url := "", github := ""
        message := none, error := some "Invalid project data" }
    else
      let githubStep : Except GhErr GithubStepData :=
        if ghToken then
          match (createGitHubRepository true project gw ck.ghNow).1 with
          | .error e => .error e
          | .ok info => .ok { url := info.url, repoName := info.repoName }
        else
          .ok { url := mockGithubUrl ck.mockGhUrlNow
                repoName := mockGithubRepoName ck.mockGhRepoNow }
      match githubStep with
      | .error e =>
        { statusCode := 200
          success := false
          url := fallbackVercelUrl ck.fbNow
          github := "https://github.com/happy-ai/fallback-repo"
          message := some "Demo URLs generated. For real deployment, check API keys."
          error := some (if e.message = "" then "Deployment failed, but here are demo URLs" else e.message) }
      | .ok githubData =>
        let vercelUrl :=
          if vercelToken && githubData.repoName != "" then
            deployToVercel vercelToken vercelProjectId githubData.repoName project vw ck.vercelNow
          else
            mockVercelUrl ck.mockVercelNow
        { statusCode := 200
          success := true
          url := vercelUrl
          github := githubData.url
          message := some "Website deployed successfully! 🚀"
          error := none }
/-- One entry of a user project history (`/api/save`,
src/unnamed/part_001 and src/server.js).  `Date` values (the time-derived
id and the ISO timestamp) are modelled by the `Nat` clock tick of the save
call. -/
structure SavedProject where
  id : String
  name : String
  preview : String
  timestamp : Nat
  code : Code
deriving DecidableEq, Repr

/-- One value of the `userSessions` map. -/
structure UserSession where
  userId : String
  projects : List SavedProject
  createdAt : Nat
deriving DecidableEq, Repr

/-- The process-wide `userSessions` map, modelled as an association list in
JS `Map` insertion order. -/
abbrev Sessions := List (String × UserSession)

/-- Model of `userSessions.get(userId)` (also of `has`, via `isSome`). -/
def sessionsFind? (s : Sessions) (uid : String) : Option UserSession :=
  match s with
  | [] => none
  | (k, v) :: rest => if k = uid then some v else sessionsFind? rest uid

/-- Model of `userSessions.set(userId, v)`: update an existing key in
place, append a fresh key at the end (JS `Map` insertion order). -/
def sessionsSet (s : Sessions) (uid : String) (v : UserSession) : Sessions :=
  match s with
  | [] => [(uid, v)]
  | (k, w) :: rest =>
    if k = uid then (k, v) :: rest else (k, w) :: sessionsSet rest uid v

/-- The `has`/`set`/`get` sequence both session endpoints start with:
return the store (extended with a fresh empty session when the key was
absent) together with the user session. -/
def getOrCreate (s : Sessions) (uid : String) (now : Nat) :
    Sessions × UserSession :=
  match sessionsFind? s uid with
  | some sess => (s, sess)
  | none =>
    (sessionsSet s uid { userId := uid, projects := [], createdAt := now },
     { userId := uid, projects := [], createdAt := now })

/-- The history entry `/api/save` prepends
(`{id, name, preview, timestamp, code}` built from the request body). -/
def mkSavedProject (project : Project) (now : Nat) : SavedProject :=
  { id := "project_" ++ toString now
    name := jsOrStr project.name "Untitled"
    preview :=
      match project.html with
      | some h => if h = "" then "" else h.take 200 ++ "..."
      | none => ""
    timestamp := now
    code := { html := jsOrStr project.html ""
              css := jsOrStr project.css ""
              js := jsOrStr project.js "" } }

/-- The JSON body sent by `/api/save`. -/
structure SaveResponse where
  success : Bool
  message : Option String
  projectId : Option String
  error : Option String
deriving DecidableEq, Repr

/-- Embedding of the `/api/save` handler (src/unnamed/part_001 and
src/server.js): get-or-create the session, prepend the new entry
(`unshift`), trim the list to 20 entries, and answer with the front
entry id.  A missing `project` in the body makes the handler throw while
building the entry — after the session was already created — and the
`catch` answers with `success: false`. -/
def saveHandler (s : Sessions) (uid : String) (project? : Option Project)
    (now : Nat) : Sessions × SaveResponse :=
  let s1 := (getOrCreate s uid now).1
  let userData := (getOrCreate s uid now).2
  match project? with
  | none =>
    (s1, { success := false, message := none, projectId := none
           error := some "Cannot read properties of undefined" })
  | some project =>
    let entry := mkSavedProject project now
    let projects1 := entry :: userData.projects
    let projects2 := if projects1.length > 20 then projects1.take 20 else projects1
    let s2 := sessionsSet s1 uid { userData with projects := projects2 }
    (s2, { success := true
           message := some "Project saved successfully"
           projectId := (projects2.head?).map (·.id)
           error := none })

/-- The JSON body sent by `/api/history/:userId`. -/
structure HistoryResponse where
  success : Bool
  history : List SavedProject
  total : Nat
  error : Option String
deriving DecidableEq, Repr

/-- Embedding of the `/api/history/:userId` handler (src/unnamed/part_001
and src/server.js): get-or-create the session — a write on a read path —
and answer with `projects.slice(0, 10)` and the full count.  There is no
`limit` parameter. -/
def historyHandler (s : Sessions) (uid : String) (now : Nat) :
    Sessions × HistoryResponse :=
  let s1 := (getOrCreate s uid now).1
  let userData := (getOrCreate s uid now).2
  (s1, { success := true
         history := userData.projects.take 10
         total := userData.projects.length
         error := none })

/-- Sequential `/api/save` calls for one user: each input is the request
project together with that call clock tick. -/
def saveMany (uid : String) (inputs : List (Project × Nat)) (s : Sessions) :
    Sessions :=
  match inputs with
  | [] => s
  | (p, t) :: rest => saveMany uid rest (saveHandler s uid (some p) t).1

/-- The project list currently stored for a user (empty when the user has
no session yet). -/
def sessionProjects (s : Sessions) (uid : String) : List SavedProject :=
  match sessionsFind? s uid with
  | some sess => sess.projects
  | none => []
/-! Helper lemmas. -/

theorem string_data_append (a b : String) : (a ++ b).data = a.data ++ b.data := by
  cases a; cases b; rfl

theorem string_eq_of_data_eq (a b : String) (h : a.data = b.data) : a = b := by
  cases a; cases b; exact congrArg String.mk h

theorem string_append_ne_empty_left (a b : String) (h : a ≠ "") : a ++ b ≠ "" := by
  intro hc
  apply h
  have hd := congrArg String.data hc
  rw [string_data_append] at hd
  have hnil : a.data = [] := (List.append_eq_nil.mp hd).1
  exact string_eq_of_data_eq _ _ hnil

theorem fbHtml0_ne_empty : fbHtml0 ≠ "" := by decide

theorem fbCss_ne_empty : fbCss ≠ "" := by decide

theorem fbJs_ne_empty : fbJs ≠ "" := by decide

theorem fallbackHtml_ne_empty (m : String) (y : Nat) : fallbackHtml m y ≠ "" := by
  unfold fallbackHtml
  apply string_append_ne_empty_left
  apply string_append_ne_empty_left
  apply string_append_ne_empty_left
  apply string_append_ne_empty_left
  apply string_append_ne_empty_left
  exact string_append_ne_empty_left _ _ fbHtml0_ne_empty

theorem jsOrStr_of_missing (v : Option String) (fb : String)
    (h : v = none ∨ v = some "") : jsOrStr v fb = fb := by
  rcases h with h | h <;> simp [jsOrStr, h]

theorem jsOrStr_of_supplied (v : Option String) (fb s : String)
    (h : v = some s) (hs : s ≠ "") : jsOrStr v fb = s := by
  simp [jsOrStr, h, hs]

/-- The fallback markup determines the interpolated description: the
description appears verbatim between fixed chunks, so two descriptions
producing the same markup are equal. -/
theorem fallbackHtml_inj (m m' : String) (y : Nat)
    (h : fallbackHtml m y = fallbackHtml m' y) : m = m' := by
  have hd := congrArg String.data h
  simp only [fallbackHtml, string_data_append, List.append_assoc] at hd
  have h1 := List.append_cancel_left hd
  have hlen : m.data.length = m'.data.length := by
    have := congrArg List.length h1
    simp only [List.length_append] at this
    omega
  exact string_eq_of_data_eq _ _ (List.append_inj h1 hlen).1

theorem generateFallbackTemplate_inj (m m' : String) (y : Nat)
    (h : generateFallbackTemplate m y = generateFallbackTemplate m' y) : m = m' :=
  fallbackHtml_inj m m' y (congrArg Code.html h)
/-! Claim theorems. -/

/-- C1: when the model call succeeds and its body parses, the generator
keeps every field the model supplied (non-empty) and replaces each missing
or empty field, field by field, with the corresponding field of the
fallback template — never an all-or-nothing substitution. -/
theorem c1_per_field_fallback (aiData : AiData) (m : String) (y : Nat) :
    ((aiData.html = none ∨ aiData.html = some "") →
      (generateAIResponse true (.parsed aiData) m y).code.html =
        (generateFallbackTemplate m y).html) ∧
    (∀ s, aiData.html = some s → s ≠ "" →
      (generateAIResponse true (.parsed aiData) m y).code.html = s) ∧
    ((aiData.css = none ∨ aiData.css = some "") →
      (generateAIResponse true (.parsed aiData) m y).code.css =
        (generateFallbackTemplate m y).css) ∧
    (∀ s, aiData.css = some s → s ≠ "" →
      (generateAIResponse true (.parsed aiData) m y).code.css = s) ∧
    ((aiData.js = none ∨ aiData.js = some "") →
      (generateAIResponse true (.parsed aiData) m y).code.js =
        (generateFallbackTemplate m y).js) ∧
    (∀ s, aiData.js = some s → s ≠ "" →
      (generateAIResponse true (.parsed aiData) m y).code.js = s) :=
  ⟨fun h => jsOrStr_of_missing _ _ h,
   fun s hs hne => jsOrStr_of_supplied _ _ s hs hne,
   fun h => jsOrStr_of_missing _ _ h,
   fun s hs hne => jsOrStr_of_supplied _ _ s hs hne,
   fun h => jsOrStr_of_missing _ _ h,
   fun s hs hne => jsOrStr_of_supplied _ _ s hs hne⟩

/-- Witness for C1: a concrete partial model answer (markup supplied, styles
absent, script empty) keeps the markup and falls back on the other two. -/
theorem c1_per_field_fallback_witness :
    (generateAIResponse true
        (.parsed { html := some "<main>ok</main>", css := none
                   js := some "", message := some "done" })
        "a pet shop" 2025).code.html = "<main>ok</main>" ∧
    (generateAIResponse true
        (.parsed { html := some "<main>ok</main>", css := none
                   js := some "", message := some "done" })
        "a pet shop" 2025).code.css = (generateFallbackTemplate "a pet shop" 2025).css ∧
    (generateAIResponse true
        (.parsed { html := some "<main>ok</main>", css := none
                   js := some "", message := some "done" })
        "a pet shop" 2025).code.js = (generateFallbackTemplate "a pet shop" 2025).js :=
  ⟨(c1_per_field_fallback _ "a pet shop" 2025).2.1 _ rfl (by decide),
   (c1_per_field_fallback _ "a pet shop" 2025).2.2.1 (Or.inl rfl),
   (c1_per_field_fallback _ "a pet shop" 2025).2.2.2.2.1 (Or.inr rfl)⟩

/-- C2: when the model call throws (timeout, network failure or non-2xx
status) or its body fails to parse, the generator does not fail outward:
it returns exactly the fallback response parameterized by the description,
whose three code fields are all non-empty. -/
theorem c2_fallback_on_failure (m : String) (y : Nat) (o : ModelOutcome)
    (h : o = ModelOutcome.failure ∨ o = ModelOutcome.parseError) :
    generateAIResponse true o m y = generateFallbackResponse m y ∧
    (generateAIResponse true o m y).code.html ≠ "" ∧
    (generateAIResponse true o m y).code.css ≠ "" ∧
    (generateAIResponse true o m y).code.js ≠ "" := by
  rcases h with h | h <;> subst h <;>
    exact ⟨rfl, fallbackHtml_ne_empty m y, fbCss_ne_empty, fbJs_ne_empty⟩

/-- Witness for C2 at a concrete thrown call. -/
theorem c2_fallback_on_failure_witness :
    generateAIResponse true ModelOutcome.failure "a blog" 2025 =
      generateFallbackResponse "a blog" 2025 ∧
    (generateAIResponse true ModelOutcome.failure "a blog" 2025).code.html ≠ "" ∧
    (generateAIResponse true ModelOutcome.failure "a blog" 2025).code.css ≠ "" ∧
    (generateAIResponse true ModelOutcome.failure "a blog" 2025).code.js ≠ "" :=
  c2_fallback_on_failure "a blog" 2025 ModelOutcome.failure (Or.inl rfl)

/-- C10: when the chat handler itself throws past validation, the response
carries `success: false` and fallback code generated from the fixed string
`AI generated website` — not from the user message (for any message other
than that fixed string the code differs from the message own fallback),
unlike the generator-level fallback, which is parameterized by the
message. -/
theorem c10_chat_catch_fixed_fallback (m : String) (ak : Bool)
    (o : ModelOutcome) (y : Nat) (hv : chatRejects (some m) = false) :
    (chatHandler ak (some m) o y true).statusCode = 200 ∧
    (chatHandler ak (some m) o y true).success = false ∧
    (chatHandler ak (some m) o y true).response =
      "I created a website for you! Check the preview." ∧
    (chatHandler ak (some m) o y true).code =
      some (generateFallbackTemplate "AI generated website" y) ∧
    (m ≠ "AI generated website" →
      (chatHandler ak (some m) o y true).code ≠
        some (generateFallbackTemplate m y)) ∧
    (generateFallbackResponse m y).code = generateFallbackTemplate m y := by
  have hh : chatHandler ak (some m) o y true =
      { statusCode := 200, success := false
        response := "I created a website for you! Check the preview."
        code := some (generateFallbackTemplate "AI generated website" y) } := by
    simp [chatHandler, hv]
  refine ⟨by rw [hh], by rw [hh], by rw [hh], by rw [hh], ?_, rfl⟩
  intro hm hc
  rw [hh] at hc
  exact hm ((generateFallbackTemplate_inj _ _ y (Option.some.inj hc)).symm)

/-- Witness for C10 at a concrete valid message. -/
theorem c10_chat_catch_fixed_fallback_witness :
    (chatHandler true (some "make a bakery site") ModelOutcome.failure 2025 true).success = false ∧
    (chatHandler true (some "make a bakery site") ModelOutcome.failure 2025 true).code =
      some (generateFallbackTemplate "AI generated website" 2025) ∧
    (chatHandler true (some "make a bakery site") ModelOutcome.failure 2025 true).code ≠
      some (generateFallbackTemplate "make a bakery site" 2025) :=
  ⟨(c10_chat_catch_fixed_fallback "make a bakery site" true ModelOutcome.failure 2025 (by decide)).2.1,
   (c10_chat_catch_fixed_fallback "make a bakery site" true ModelOutcome.failure 2025 (by decide)).2.2.2.1,
   (c10_chat_catch_fixed_fallback "make a bakery site" true ModelOutcome.failure 2025 (by decide)).2.2.2.2.1
     (by decide)⟩
theorem chatHandler_rejects_short (m : String) (ak : Bool) (o : ModelOutcome)
    (y : Nat) (t : Bool) (h : (jsTrim m).length < chatMinMessageLength) :
    chatHandler ak (some m) o y t = chatInvalidResponse := by
  have hr : chatRejects (some m) = true := by simp [chatRejects, h]
  simp [chatHandler, hr]

theorem generateWebsiteHandler_rejects_short (d : String) (agentId : String)
    (gen : Gen0Outcome) (gw : Gh0World) (vw : Except Unit String)
    (h : d.length < generateMinDescriptionLength) :
    generateWebsiteHandler (some d) agentId gen gw vw = generateInvalidResponse := by
  simp [generateWebsiteHandler, h]

/-- C7: the chat endpoint rejects any message whose trimmed length is below
3 with its own validation error; this threshold is strictly smaller than
the generate-website pipeline minimum description length of 10, which
rejects short descriptions with its own response before any generation
outcome can matter; in particular `chat("hi")` (length 2) gets the chat
validation error, which is distinct from the pipeline rejection. -/
theorem c7_distinct_thresholds :
    chatMinMessageLength < generateMinDescriptionLength ∧
    ("hi" : String).length = 2 ∧
    (∀ (m : String) (ak : Bool) (o : ModelOutcome) (y : Nat) (t : Bool),
      (jsTrim m).length < chatMinMessageLength →
      chatHandler ak (some m) o y t = chatInvalidResponse) ∧
    (∀ (ak : Bool) (o : ModelOutcome) (y : Nat) (t : Bool),
      chatHandler ak (some "hi") o y t = chatInvalidResponse) ∧
    chatInvalidResponse.response ≠ generateInvalidResponse.error.getD "" ∧
    (∀ (d : String) (agentId : String) (gen : Gen0Outcome) (gw : Gh0World)
      (vw : Except Unit String),
      d.length < generateMinDescriptionLength →
      generateWebsiteHandler (some d) agentId gen gw vw = generateInvalidResponse) :=
  ⟨by decide, by decide,
   fun m ak o y t h => chatHandler_rejects_short m ak o y t h,
   fun ak o y t => chatHandler_rejects_short "hi" ak o y t (by decide),
   by decide,
   fun d agentId gen gw vw h =>
     generateWebsiteHandler_rejects_short d agentId gen gw vw h⟩

/-- Witness for C7: the two handlers at concrete short inputs. -/
theorem c7_distinct_thresholds_witness :
    chatHandler true (some "hi") ModelOutcome.failure 2025 false = chatInvalidResponse ∧
    generateWebsiteHandler (some "shop") "agent1" Gen0Outcome.failure
      { createRepo := .error (), fileCreate := fun _ => .ok () } (.ok "x")
      = generateInvalidResponse :=
  ⟨c7_distinct_thresholds.2.2.2.1 true ModelOutcome.failure 2025 false,
   c7_distinct_thresholds.2.2.2.2.2 "shop" "agent1" Gen0Outcome.failure
     { createRepo := .error (), fileCreate := fun _ => .ok () } (.ok "x") (by decide)⟩

/-- C3 (amended): with no credentials configured, a deploy request with a
valid project succeeds from the handler own perspective — `success` is
`true`, not `false` — and carries the mock Vercel URL, the mock GitHub URL
and a message field. -/
theorem c3_no_credentials_mock_response (project : Project) (gw : GithubWorld)
    (vw : VercelWorld) (ck : DeployClock)
    (h : jsTruthyOpt project.html = true) :
    deployHandler false false false (some project) gw vw ck =
      { statusCode := 200, success := true
        url := mockVercelUrl ck.mockVercelNow
        github := mockGithubUrl ck.mockGhUrlNow
        message := some "Website deployed successfully! 🚀"
        error := none } ∧
    isMockVercelUrl (deployHandler false false false (some project) gw vw ck).url ∧
    isMockGithubUrl (deployHandler false false false (some project) gw vw ck).github := by
  have hh : deployHandler false false false (some project) gw vw ck =
      { statusCode := 200, success := true
        url := mockVercelUrl ck.mockVercelNow
        github := mockGithubUrl ck.mockGhUrlNow
        message := some "Website deployed successfully! 🚀"
        error := none } := by
    simp [deployHandler, h]
  exact ⟨hh, ⟨ck.mockVercelNow, by rw [hh]⟩, ⟨ck.mockGhUrlNow, by rw [hh]⟩⟩

/-- Counterexample for C3 as stated: at a concrete no-credential deploy of a
valid project, `success` is `true`, contradicting the claimed
`success: false`. -/
theorem c3_counterexample :
    (deployHandler false false false
      (some { name := none, html := some "<h1>x</h1>", css := none, js := none })
      { createRepo := .error { status := none, message := "" }
        userLookup := none, fileCreate := fun _ => .ok () }
      { apiDeploy := .error (), directDeploy := .error () }
      { ghNow := 0, mockGhUrlNow := 1, mockGhRepoNow := 2
        mockVercelNow := 3, vercelNow := 4, fbNow := 5 }).success = true := by
  rfl

/-- Witness for the amended C3 at the same concrete input. -/
theorem c3_no_credentials_mock_response_witness :
    deployHandler false false false
      (some { name := none, html := some "<h1>x</h1>", css := none, js := none })
      { createRepo := .error { status := none, message := "" }
        userLookup := none, fileCreate := fun _ => .ok () }
      { apiDeploy := .error (), directDeploy := .error () }
      { ghNow := 0, mockGhUrlNow := 1, mockGhRepoNow := 2
        mockVercelNow := 3, vercelNow := 4, fbNow := 5 } =
      { statusCode := 200, success := true
        url := mockVercelUrl 3, github := mockGithubUrl 1
        message := some "Website deployed successfully! 🚀", error := none } :=
  (c3_no_credentials_mock_response _ _ _ _ (by decide)).1

/-- C4: when the GitHub credential is present but the publish step throws,
the deploy handler outer catch absorbs the exception and answers with
`success: false`, a synthetic fallback deployment URL, the synthetic
fallback repository URL and a human-readable message — no raw error
escapes as an HTTP failure (the status stays 200). -/
theorem c4_publish_error_absorbed (project : Project) (vt vp : Bool)
    (gw : GithubWorld) (vw : VercelWorld) (ck : DeployClock) (e : GhErr)
    (hp : jsTruthyOpt project.html = true)
    (he : (createGitHubRepository true project gw ck.ghNow).1 = .error e) :
    deployHandler true vt vp (some project) gw vw ck =
      { statusCode := 200, success := false
        url := fallbackVercelUrl ck.fbNow
        github := "https://github.com/happy-ai/fallback-repo"
        message := some "Demo URLs generated. For real deployment, check API keys."
        error := some (if e.message = "" then "Deployment failed, but here are demo URLs"
                       else e.message) } := by
  simp [deployHandler, hp, he]

/-- Witness for C4: a concrete publish failure (a 500 from the
repository-creation call) is absorbed into the demo-URL response. -/
theorem c4_publish_error_absorbed_witness :
    deployHandler true false false
      (some { name := none, html := some "<p>hi</p>", css := none, js := none })
      { createRepo := .error { status := some 500, message := "boom" }
        userLookup := none, fileCreate := fun _ => .ok () }
      { apiDeploy := .error (), directDeploy := .error () }
      { ghNow := 0, mockGhUrlNow := 1, mockGhRepoNow := 2
        mockVercelNow := 3, vercelNow := 4, fbNow := 5 } =
      { statusCode := 200, success := false
        url := fallbackVercelUrl 5
        github := "https://github.com/happy-ai/fallback-repo"
        message := some "Demo URLs generated. For real deployment, check API keys."
        error := some "boom" } :=
  c4_publish_error_absorbed _ false false _ _ _
    { status := some 500, message := "boom" } (by decide) rfl
/-- C6: in the publisher, a failure of the first file-creation call (the
markup file, which establishes the initial commit) propagates outward as
the publish error, while the success of publish and the retention of
already-created files are independent of the three later file-creation
calls (styles, script, README): each later file is present in the created
set exactly when its own call succeeded, a later failure neither rolls
back `index.html` nor makes publish fail. -/
theorem c6_first_file_load_bearing (project : Project) (gw : GithubWorld)
    (now : Nat) (repo : RepoData) (hr : gw.createRepo = .ok repo) :
    (∀ e, gw.fileCreate 0 = .error e →
      createGitHubRepository true project gw now = (.error (mapGhError e), [])) ∧
    (gw.fileCreate 0 = .ok () →
      (createGitHubRepository true project gw now).1 =
        .ok { url := repo.htmlUrl
              repoName := getGitHubUsername gw.userLookup ++ "/" ++
                ("happy-website-" ++ toString now)
              cloneUrl := repo.cloneUrl } ∧
      "index.html" ∈ (createGitHubRepository true project gw now).2 ∧
      (gw.fileCreate 1 = .ok () ↔
        "style.css" ∈ (createGitHubRepository true project gw now).2) ∧
      (gw.fileCreate 2 = .ok () ↔
        "script.js" ∈ (createGitHubRepository true project gw now).2) ∧
      (gw.fileCreate 3 = .ok () ↔
        "README.md" ∈ (createGitHubRepository true project gw now).2)) := by
  constructor
  · intro e he
    simp [createGitHubRepository, hr, he]
  · intro h0
    rcases h1 : gw.fileCreate 1 with e1 | ⟨⟩ <;>
      rcases h2 : gw.fileCreate 2 with e2 | ⟨⟩ <;>
        rcases h3 : gw.fileCreate 3 with e3 | ⟨⟩ <;>
          refine ⟨by simp [createGitHubRepository, hr, h0], ?_, ?_, ?_, ?_⟩ <;>
            simp [createGitHubRepository, hr, h0, h1, h2, h3, ghFilePaths,
              show List.range 3 = [0, 1, 2] from rfl]

/-- Witness for C6: one world where the first file-creation call fails with
a 401 (publish fails with the mapped token error) and one where only the
styles file fails (publish succeeds, the markup and the two later files
are retained, the styles file is absent). -/
theorem c6_first_file_load_bearing_witness :
    createGitHubRepository true
        { name := none, html := some "<p>a</p>", css := none, js := none }
        { createRepo := .ok { htmlUrl := "https://github.com/u/r", cloneUrl := "c" }
          userLookup := some "u"
          fileCreate := fun _ => .error { status := some 401, message := "Bad credentials" } }
        7 =
      (.error { status := none
                message := "Invalid GitHub token. Please check your GITHUB_TOKEN." }, []) ∧
    (createGitHubRepository true
        { name := none, html := some "<p>a</p>", css := none, js := none }
        { createRepo := .ok { htmlUrl := "https://github.com/u/r", cloneUrl := "c" }
          userLookup := some "u"
          fileCreate := fun n => if n = 1 then
              .error { status := some 500, message := "x" } else .ok () }
        7).1 =
      .ok { url := "https://github.com/u/r", repoName := "u/" ++ ("happy-website-" ++ toString 7)
            cloneUrl := "c" } ∧
    "index.html" ∈ (createGitHubRepository true
        { name := none, html := some "<p>a</p>", css := none, js := none }
        { createRepo := .ok { htmlUrl := "https://github.com/u/r", cloneUrl := "c" }
          userLookup := some "u"
          fileCreate := fun n => if n = 1 then
              .error { status := some 500, message := "x" } else .ok () }
        7).2 ∧
    "script.js" ∈ (createGitHubRepository true
        { name := none, html := some "<p>a</p>", css := none, js := none }
        { createRepo := .ok { htmlUrl := "https://github.com/u/r", cloneUrl := "c" }
          userLookup := some "u"
          fileCreate := fun n => if n = 1 then
              .error { status := some 500, message := "x" } else .ok () }
        7).2 :=
  ⟨(c6_first_file_load_bearing _ _ 7 _ rfl).1
     { status := some 401, message := "Bad credentials" } rfl,
   ((c6_first_file_load_bearing _ _ 7 _ rfl).2 rfl).1,
   ((c6_first_file_load_bearing _ _ 7 _ rfl).2 rfl).2.1,
   ((c6_first_file_load_bearing _ _ 7 _ rfl).2 rfl).2.2.2.1.mp rfl⟩
theorem sessionsFind?_set_self (s : Sessions) (uid : String) (v : UserSession) :
    sessionsFind? (sessionsSet s uid v) uid = some v := by
  induction s with
  | nil => simp [sessionsSet, sessionsFind?]
  | cons kv rest ih =>
    by_cases h : kv.1 = uid <;>
      simp [sessionsSet, sessionsFind?, h, ih]

theorem sessionsSet_of_absent (s : Sessions) (uid : String) (v : UserSession)
    (h : sessionsFind? s uid = none) : sessionsSet s uid v = s ++ [(uid, v)] := by
  induction s with
  | nil => simp [sessionsSet]
  | cons kv rest ih =>
    by_cases hk : kv.1 = uid
    · simp [sessionsFind?, hk] at h
    · simp [sessionsFind?, hk] at h
      simp [sessionsSet, hk, ih h]

theorem jsTrim20_eq_take (l : List SavedProject) :
    (if l.length > 20 then l.take 20 else l) = l.take 20 := by
  by_cases h : l.length > 20
  · simp [h]
  · have hle : l.length ≤ 20 := by omega
    simp [h, List.take_of_length_le hle]

/-- One `/api/save` call leaves the user stored list equal to the new
entry prepended to the old list, trimmed to 20. -/
theorem sessionProjects_save (s : Sessions) (uid : String) (p : Project) (t : Nat) :
    sessionProjects (saveHandler s uid (some p) t).1 uid =
      (mkSavedProject p t :: sessionProjects s uid).take 20 := by
  cases hf : sessionsFind? s uid with
  | some sess =>
    simp [saveHandler, getOrCreate, hf, sessionProjects, sessionsFind?_set_self,
      jsTrim20_eq_take]
  | none =>
    simp [saveHandler, getOrCreate, hf, sessionProjects, sessionsFind?_set_self,
      jsTrim20_eq_take]

theorem take_append_take (n : Nat) (L M : List SavedProject) :
    (L ++ M.take n).take n = (L ++ M).take n := by
  rw [List.take_append_eq_append_take, List.take_append_eq_append_take,
    List.take_take, Nat.min_eq_left (Nat.sub_le n L.length)]

/-- Invariant of repeated saves: starting from a take-20-closed list, the
stored list is the reversed inputs (newest first) in front of the old
list, trimmed to 20. -/
theorem saveMany_sessionProjects (uid : String) (inputs : List (Project × Nat)) :
    ∀ s : Sessions, (sessionProjects s uid).take 20 = sessionProjects s uid →
    sessionProjects (saveMany uid inputs s) uid =
      ((inputs.reverse.map fun pt => mkSavedProject pt.1 pt.2) ++
        sessionProjects s uid).take 20 := by
  induction inputs with
  | nil => intro s hs; simpa [saveMany] using hs.symm
  | cons pt rest ih =>
    intro s hs
    have hstep := sessionProjects_save s uid pt.1 pt.2
    have hclosed : (sessionProjects (saveHandler s uid (some pt.1) pt.2).1 uid).take 20 =
        sessionProjects (saveHandler s uid (some pt.1) pt.2).1 uid := by
      rw [hstep, List.take_take]
      norm_num
    calc sessionProjects (saveMany uid (pt :: rest) s) uid
        = sessionProjects (saveMany uid rest (saveHandler s uid (some pt.1) pt.2).1) uid := by
          simp [saveMany]
      _ = ((rest.reverse.map fun q => mkSavedProject q.1 q.2) ++
            sessionProjects (saveHandler s uid (some pt.1) pt.2).1 uid).take 20 :=
          ih _ hclosed
      _ = ((rest.reverse.map fun q => mkSavedProject q.1 q.2) ++
            (mkSavedProject pt.1 pt.2 :: sessionProjects s uid).take 20).take 20 := by
          rw [hstep]
      _ = ((rest.reverse.map fun q => mkSavedProject q.1 q.2) ++
            (mkSavedProject pt.1 pt.2 :: sessionProjects s uid)).take 20 :=
          take_append_take 20 _ _
      _ = (((pt :: rest).reverse.map fun q => mkSavedProject q.1 q.2) ++
            sessionProjects s uid).take 20 := by
          simp

/-- C5 (amended): after 25 saves for one user, the stored list holds
exactly the 20 most recent entries, newest first; a history query then
returns the first 10 of them (the endpoint has no `limit` parameter and
always answers with `projects.slice(0, 10)`) and reports `total = 20`. -/
theorem c5_capacity_and_history (uid : String) (inputs : List (Project × Nat))
    (h : inputs.length = 25) (now : Nat) :
    sessionProjects (saveMany uid inputs []) uid =
      (inputs.reverse.map fun pt => mkSavedProject pt.1 pt.2).take 20 ∧
    (sessionProjects (saveMany uid inputs []) uid).length = 20 ∧
    (historyHandler (saveMany uid inputs []) uid now).2.history =
      (inputs.reverse.map fun pt => mkSavedProject pt.1 pt.2).take 10 ∧
    (historyHandler (saveMany uid inputs []) uid now).2.total = 20 := by
  have hP : sessionProjects (saveMany uid inputs []) uid =
      (inputs.reverse.map fun pt => mkSavedProject pt.1 pt.2).take 20 := by
    have := saveMany_sessionProjects uid inputs []
      (by simp [sessionProjects, sessionsFind?])
    simpa [sessionProjects, sessionsFind?] using this
  have hlen : (sessionProjects (saveMany uid inputs []) uid).length = 20 := by
    rw [hP]
    simp [List.length_take, h]
  refine ⟨hP, hlen, ?_⟩
  cases hf : sessionsFind? (saveMany uid inputs []) uid with
  | none =>
    exfalso
    have : sessionProjects (saveMany uid inputs []) uid = [] := by
      simp [sessionProjects, hf]
    rw [this] at hlen
    simp at hlen
  | some sess =>
    have hsp : sess.projects = sessionProjects (saveMany uid inputs []) uid := by
      simp [sessionProjects, hf]
    constructor
    · simp only [historyHandler, getOrCreate, hf]
      rw [hsp, hP, List.take_take]
      norm_num
    · simp only [historyHandler, getOrCreate, hf]
      rw [hsp, hlen]

/-- Witness for the amended C5: 25 concrete saves for `user42`. -/
theorem c5_capacity_and_history_witness :
    (((List.range 25).map fun i =>
        (({ name := none, html := some "<h1>w</h1>", css := none, js := none } : Project), i)).length
      = 25) ∧
    (sessionProjects
      (saveMany "user42"
        ((List.range 25).map fun i =>
          (({ name := none, html := some "<h1>w</h1>", css := none, js := none } : Project), i))
        []) "user42").length = 20 ∧
    (historyHandler
      (saveMany "user42"
        ((List.range 25).map fun i =>
          (({ name := none, html := some "<h1>w</h1>", css := none, js := none } : Project), i))
        []) "user42" 99).2.total = 20 :=
  ⟨by simp,
   (c5_capacity_and_history "user42" _ (by simp) 99).2.1,
   (c5_capacity_and_history "user42" _ (by simp) 99).2.2.2⟩

/-- Counterexample for C5 as stated: after 25 concrete saves the history
response carries 10 entries, not the 20 the claim promises for a
`limit=100` query — the endpoint has no limit parameter at all. -/
theorem c5_counterexample :
    (historyHandler
      (saveMany "user42"
        ((List.range 25).map fun i =>
          (({ name := none, html := some "<h1>w</h1>", css := none, js := none } : Project), i))
        []) "user42" 99).2.history.length = 10 ∧
    ¬ (historyHandler
      (saveMany "user42"
        ((List.range 25).map fun i =>
          (({ name := none, html := some "<h1>w</h1>", css := none, js := none } : Project), i))
        []) "user42" 99).2.history.length = 20 := by
  constructor <;> decide

/-- C8: reading a user history twice with no intervening save returns the
same response — same entries, same order, same total. -/
theorem c8_history_idempotent (s : Sessions) (uid : String) (n1 n2 : Nat) :
    (historyHandler ((historyHandler s uid n1).1) uid n2).2 =
      (historyHandler s uid n1).2 := by
  cases hf : sessionsFind? s uid with
  | some sess => simp [historyHandler, getOrCreate, hf]
  | none =>
    simp [historyHandler, getOrCreate, hf, sessionsFind?_set_self]

/-- C9: the history read has exactly one write effect on the store: a
userId without a session gets a fresh empty session (that user id, an
empty project list, the current tick) appended, leaving every existing
entry untouched; for a known userId the store is unchanged. -/
theorem c9_history_read_writes_store (s : Sessions) (uid : String) (now : Nat) :
    (sessionsFind? s uid = none →
      (historyHandler s uid now).1 =
        s ++ [(uid, { userId := uid, projects := [], createdAt := now })]) ∧
    (∀ sess, sessionsFind? s uid = some sess →
      (historyHandler s uid now).1 = s) := by
  constructor
  · intro h
    simp [historyHandler, getOrCreate, h, sessionsSet_of_absent s uid _ h]
  · intro sess h
    simp [historyHandler, getOrCreate, h]

/-- Witness for C9: a first read for `alice` on an empty store inserts her
empty session. -/
theorem c9_history_read_writes_store_witness :
    (historyHandler [] "alice" 5).1 =
      [("alice", { userId := "alice", projects := [], createdAt := 5 })] :=
  (c9_history_read_writes_store [] "alice" 5).1 rfl

/-- Witness for C8 at a concrete store. -/
theorem c8_history_idempotent_witness :
    (historyHandler ((historyHandler [] "bob" 1).1) "bob" 2).2 =
      (historyHandler [] "bob" 1).2 :=
  c8_history_idempotent [] "bob" 1 2
